import Mathlib

/-!
Shallow embedding of the calibration-comparison core of
`src/analysis/deep2_r23_o32/plotting/te_metal_plots.py`.

Python/NumPy floats are modelled as exact rationals (`ℚ`).  A NumPy value
that can be either a scalar or a 1-D array is modelled by `NpVal`; NumPy's
element-wise arithmetic with 1-D broadcasting (shapes are compatible when the
lengths are equal or one of them is `1`; otherwise a `ValueError` is raised)
is modelled by `npBroadcast`, which returns `none` exactly when NumPy raises.
`np.poly1d` rejects coefficient input of dimension above one with
`ValueError`; this is modelled by `np_poly1d` over a sum of 1-D and 2-D
coefficient inputs, returning `Except` like the Python exception.
-/

/-- Python exceptions raised by the modelled NumPy calls. -/
inductive PyError where
  /-- Raised as `ValueError: Polynomial must be 1d only.` by `np.poly1d` when
  the coefficient input has more than one dimension. -/
  | poly_not_1d : PyError
deriving DecidableEq, Repr

/-- A NumPy value that is either a 0-d scalar or a 1-D array. -/
inductive NpVal where
  | scalar : ℚ → NpVal
  | arr : List ℚ → NpVal
deriving DecidableEq, Repr

/-- NumPy 1-D broadcasting of a binary element-wise operation on two 1-D
arrays: equal lengths pair up element-wise; a length-1 array is stretched
across the other; any other length mismatch raises (`none`). -/
def bcastList (f : ℚ → ℚ → ℚ) (as bs : List ℚ) : Option (List ℚ) :=
  if as.length = bs.length then some (List.zipWith f as bs)
  else if as.length = 1 then some (bs.map (f (as.getD 0 0)))
  else if bs.length = 1 then some (as.map (fun a => f a (bs.getD 0 0)))
  else none

/-- NumPy element-wise binary operation on scalar-or-array values, with 1-D
broadcasting in the array/array case. -/
def npBroadcast (f : ℚ → ℚ → ℚ) : NpVal → NpVal → Option NpVal
  | .scalar a, .scalar b => some (.scalar (f a b))
  | .scalar a, .arr bs => some (.arr (bs.map (f a)))
  | .arr as, .scalar b => some (.arr (as.map (fun a => f a b)))
  | .arr as, .arr bs => (bcastList f as bs).map .arr

/-- NumPy element-wise unary operation on a scalar-or-array value. -/
def npMap (f : ℚ → ℚ) : NpVal → NpVal
  | .scalar a => .scalar (f a)
  | .arr as => .arr (as.map f)

/-- Horner evaluation of a polynomial given highest-degree-first coefficients,
as `np.poly1d.__call__` does. -/
def polyEval (coeffs : List ℚ) (x : ℚ) : ℚ :=
  coeffs.foldl (fun acc c => acc * x + c) 0

/-- Coefficient input handed to `np.poly1d`: either a plain (1-D) coefficient
list or a nested (2-D) list. -/
inductive NpCoeffInput where
  | one : List ℚ → NpCoeffInput
  | two : List (List ℚ) → NpCoeffInput

/-- Model of `np.poly1d`: accepts a 1-D coefficient array (highest degree first) and
raises `ValueError: Polynomial must be 1d only.` on input of dimension
above one. -/
def np_poly1d : NpCoeffInput → Except PyError (List ℚ)
  | .one cs => Except.ok cs
  | .two _ => Except.error PyError.poly_not_1d

/-- Constant `jiang_coeff = [-24.135, 6.1532, -0.37866, -0.147, -7.071]`
(module-level constant, te_metal_plots.py line 19). -/
def jiang_coeff : List ℚ := [-24.135, 6.1532, -0.37866, -0.147, -7.071]

/-- Constant `bian_coeff = [138.0430, -54.8284, 7.2954, -0.32293]`
(module-level constant, te_metal_plots.py line 20). -/
def bian_coeff : List ℚ := [138.0430, -54.8284, 7.2954, -0.32293]

/-- Evaluation of `p_jiang = np.poly1d([jiang_coeff[2], jiang_coeff[1], jiang_coeff[0]])`
applied to one element (te_metal_plots.py line 37). -/
def jiang_p (m : ℚ) : ℚ :=
  polyEval [jiang_coeff.getD 2 0, jiang_coeff.getD 1 0, jiang_coeff.getD 0 0] m

/-- One element of `jiang_calibration`:
`p_jiang(m) + jiang_coeff[3] * (jiang_coeff[4] + m) * lo32`
(te_metal_plots.py lines 37-40, element-wise semantics). -/
def jiang_elem (m y : ℚ) : ℚ :=
  jiang_p m + jiang_coeff.getD 3 0 * (jiang_coeff.getD 4 0 + m) * y

/-- Function `jiang_calibration(metal_det, lo32)` (te_metal_plots.py lines 23-40):
`p_jiang(metal_det) + jiang_coeff[3] * (jiang_coeff[4] + metal_det) * lo32`,
evaluated with NumPy element-wise broadcasting; `none` models the
`ValueError` NumPy raises on incompatible shapes. -/
def jiang_calibration (metal_det lo32 : NpVal) : Option NpVal := do
  let p := npMap jiang_p metal_det
  let cross := npMap (fun m => jiang_coeff.getD 3 0 * (jiang_coeff.getD 4 0 + m)) metal_det
  let t ← npBroadcast (fun a b => a * b) cross lo32
  npBroadcast (fun a b => a + b) p t

/-- Function `bian_calibration_r23(metal_det)` (te_metal_plots.py lines 43-57):
`p_bian = np.poly1d([bian_coeff[::-1]])` — note the coefficient list is
wrapped in an extra pair of brackets, so `np.poly1d` receives a 2-D array —
then `p_bian(metal_det)`. -/
def bian_calibration_r23 (metal_det : ℚ) : Except PyError ℚ := do
  let p ← np_poly1d (.two [bian_coeff.reverse])
  pure (polyEval p metal_det)

/-- What `bian_calibration_r23` computes once the extra brackets around
`bian_coeff[::-1]` are removed, i.e. `np.poly1d(bian_coeff[::-1])` applied to
`metal_det` — the cubic stated in the function's own docstring
(te_metal_plots.py lines 51-53). -/
def bian_calibration_r23_fixed (metal_det : ℚ) : Except PyError ℚ := do
  let p ← np_poly1d (.one bian_coeff.reverse)
  pure (polyEval p metal_det)

/-- Function `bian_calibration_o32(metal_det) = (-1 / 0.59) * (metal_det - 8.54)`
(te_metal_plots.py lines 60-68). -/
def bian_calibration_o32 (metal_det : ℚ) : ℚ :=
  (-1 / 0.59) * (metal_det - 8.54)

/-- Model of `np.where(xs == v)[0]`: the indices, in increasing order, of the entries
of `xs` equal to `v` (te_metal_plots.py lines 299-300). -/
def np_where_eq (xs : List ℚ) (v : ℚ) : List ℕ :=
  (List.range xs.length).filter (fun i => decide (xs.getD i 0 = v))

/-- The dataset selection filter of `jiang_comparison` / `bian_comparison`:
`detect = np.where(valid == 1.0)[0]` and `rlimit = np.where(valid == 0.5)[0]`
(te_metal_plots.py lines 298-300). -/
def dataset_selection (valid : List ℚ) : List ℕ × List ℕ :=
  (np_where_eq valid 1, np_where_eq valid (1/2))

/-- NumPy integer fancy indexing `xs[idx]`; out-of-range indices raise
(`none`). -/
def np_index (xs : List ℚ) (idx : List ℕ) : Option (List ℚ) :=
  if idx.all (fun i => decide (i < xs.length)) then
    some (idx.map (fun i => xs.getD i 0))
  else none

/-- Model of `np.concatenate((...), axis=None)` on 1-D arrays: plain concatenation
(te_metal_plots.py line 341). -/
def np_concatenate (arrs : List (List ℚ)) : List ℚ :=
  arrs.flatten

/-- Model of `np.median`: sort, then take the middle element (odd length) or the mean
of the two middle elements (even length).  NumPy returns NaN on an empty
array; `0` stands in for that never-exercised case. -/
def np_median (xs : List ℚ) : ℚ :=
  let s := List.insertionSort (fun a b => a ≤ b) xs
  let n := xs.length
  if n = 0 then 0
  else if n % 2 = 1 then s.getD (n / 2) 0
  else (s.getD (n / 2 - 1) 0 + s.getD (n / 2) 0) / 2

/-- Model of `np.average` with no weights: the arithmetic mean. -/
def np_average (xs : List ℚ) : ℚ :=
  xs.sum / xs.length

/-- The square of `np.std` with its default `ddof=0`: the population variance,
mean of squared deviations with denominator `N`.  `np.std` itself is the
(irrational-valued) square root of this. -/
def np_var (xs : List ℚ) : ℚ :=
  (xs.map (fun x => (x - np_average xs) ^ 2)).sum / xs.length

/-- One dataset's residual array `predicted - observed`, with NumPy
broadcasting semantics for the element-wise subtraction
(te_metal_plots.py lines 331, 338-339). -/
def residuals (predicted observed : List ℚ) : Option (List ℚ) :=
  bcastList (fun a b => a - b) predicted observed

/-- The residual array of every dataset pair in turn; `none` as soon as one
pair's shapes are incompatible. -/
def residual_arrays : List (List ℚ × List ℚ) → Option (List (List ℚ))
  | [] => some []
  | pr :: rest => do
    let r ← residuals pr.1 pr.2
    let rs ← residual_arrays rest
    pure (r :: rs)

/-- The discrepancy aggregator of `jiang_comparison`
(te_metal_plots.py lines 331-345), generalised to a list of
`(predicted, observed)` dataset pairs: per-dataset residuals are
concatenated — never averaged per dataset — and the pooled array's median,
mean and population variance (the square of `np.std`, `ddof=0`) are
returned. -/
def discrepancy_stats (pairs : List (List ℚ × List ℚ)) : Option (ℚ × ℚ × ℚ) := do
  let rs ← residual_arrays pairs
  let arr_sum := np_concatenate rs
  pure (np_median arr_sum, np_average arr_sum, np_var arr_sum)

/-- The computational core of `jiang_comparison`
(te_metal_plots.py lines 293-341), with table I/O and plotting stripped:
from the composite table's `Detection`, `logR23_Composite`,
`logO32_Composite` and `12+log(O/H)` columns and the raw `R23`, `O32`, `OH`
columns of the DEEP2 and MACT catalogs, build the pooled residual array
`arr_sum = np.concatenate((A_comparison, B_comparison, C_comparison))`.
`log10` abstracts `np.log10`, applied element-wise exactly where the source
applies it. -/
def jiang_comparison_arr_sum (log10 : ℚ → ℚ)
    (valid lr23_comp lo32_comp zmetal : List ℚ)
    (deep_r23 deep_o32 deep_oh : List ℚ)
    (mact_r23 mact_o32 mact_oh : List ℚ) : Option (List ℚ) := do
  let detect := np_where_eq valid 1
  let lR23 ← np_index lr23_comp detect
  let lO32 ← np_index lo32_comp detect
  let metal_det ← np_index zmetal detect
  let der_r23 := deep_r23.map log10
  let der_o32 := deep_o32.map log10
  let der_r23_mact := mact_r23.map log10
  let der_o32_mact := mact_o32.map log10
  let jR23_det ← jiang_calibration (.arr metal_det) (.arr lO32)
  let A ← npBroadcast (fun a b => a - b) jR23_det (.arr lR23)
  let jR23_DEEP ← jiang_calibration (.arr deep_oh) (.arr der_o32)
  let jR23_MACT ← jiang_calibration (.arr mact_oh) (.arr der_o32_mact)
  let B ← npBroadcast (fun a b => a - b) jR23_DEEP (.arr der_r23)
  let C ← npBroadcast (fun a b => a - b) jR23_MACT (.arr der_r23_mact)
  match A, B, C with
  | .arr a, .arr b, .arr c => some (np_concatenate [a, b, c])
  | _, _, _ => none

/-!
Helper lemmas shared by the claim theorems.
-/

/-- Membership in the modelled `np.where(xs == v)[0]`. -/
theorem mem_np_where_eq {xs : List ℚ} {v : ℚ} {i : ℕ} :
    i ∈ np_where_eq xs v ↔ i < xs.length ∧ xs.getD i 0 = v := by
  simp [np_where_eq, List.mem_filter, List.mem_range]

/-- Indices returned by the modelled `np.where` are strictly increasing. -/
theorem np_where_eq_pairwise (xs : List ℚ) (v : ℚ) :
    (np_where_eq xs v).Pairwise (fun a b => a < b) :=
  (List.pairwise_lt_range _).filter _

/-- Fancy indexing succeeds when every index is in range. -/
theorem np_index_eq_some {xs : List ℚ} {idx : List ℕ}
    (h : ∀ i ∈ idx, i < xs.length) :
    np_index xs idx = some (idx.map (fun i => xs.getD i 0)) := by
  have hall : idx.all (fun i => decide (i < xs.length)) = true := by
    simpa [List.all_eq_true] using h
  simp [np_index, hall]

/-- Two pointwise-equal binary functions zip alike. -/
theorem zipWith_congr_fun {α β γ : Type} {f g : α → β → γ}
    (h : ∀ a b, f a b = g a b) :
    ∀ (as : List α) (bs : List β), List.zipWith f as bs = List.zipWith g as bs
  | [], _ => by simp
  | _ :: _, [] => by simp
  | a :: as, b :: bs => by simp [h a b, zipWith_congr_fun h as bs]

/-- Fusing an element-wise add of a mapped list with an element-wise multiply
of a mapped list into a single zip. -/
theorem zipWith_add_mul_fuse (f g : ℚ → ℚ) :
    ∀ (ms ys : List ℚ),
      List.zipWith (fun a b => a + b) (ms.map f)
          (List.zipWith (fun a b => a * b) (ms.map g) ys)
        = List.zipWith (fun m y => f m + g m * y) ms ys
  | [], _ => by simp
  | _ :: _, [] => by simp
  | m :: ms, y :: ys => by simp [zipWith_add_mul_fuse f g ms ys]

/-- Broadcasting two arrays of equal length is plain element-wise zipping. -/
theorem npBroadcast_arr_eq (f : ℚ → ℚ → ℚ) (as bs : List ℚ)
    (h : as.length = bs.length) :
    npBroadcast f (.arr as) (.arr bs) = some (.arr (List.zipWith f as bs)) := by
  simp [npBroadcast, bcastList, h]

/-- On two scalars, `jiang_calibration` computes `jiang_elem`. -/
theorem jiang_calibration_scalar (m y : ℚ) :
    jiang_calibration (.scalar m) (.scalar y) = some (.scalar (jiang_elem m y)) :=
  rfl

/-- On two arrays of equal length, `jiang_calibration` zips `jiang_elem`
element-wise. -/
theorem jiang_calibration_arr {ms ys : List ℚ} (h : ms.length = ys.length) :
    jiang_calibration (.arr ms) (.arr ys)
      = some (.arr (List.zipWith jiang_elem ms ys)) := by
  have h1 : npBroadcast (fun a b => a * b)
      (.arr (ms.map (fun m => jiang_coeff.getD 3 0 * (jiang_coeff.getD 4 0 + m))))
      (.arr ys)
      = some (.arr (List.zipWith (fun a b => a * b)
          (ms.map (fun m => jiang_coeff.getD 3 0 * (jiang_coeff.getD 4 0 + m))) ys)) :=
    npBroadcast_arr_eq _ _ _ (by simpa using h)
  have h2 : npBroadcast (fun a b => a + b) (.arr (ms.map jiang_p))
      (.arr (List.zipWith (fun a b => a * b)
          (ms.map (fun m => jiang_coeff.getD 3 0 * (jiang_coeff.getD 4 0 + m))) ys))
      = some (.arr (List.zipWith (fun a b => a + b) (ms.map jiang_p)
          (List.zipWith (fun a b => a * b)
            (ms.map (fun m => jiang_coeff.getD 3 0 * (jiang_coeff.getD 4 0 + m))) ys))) :=
    npBroadcast_arr_eq _ _ _ (by simp [h])
  simp only [jiang_calibration, npMap, h1, h2, Option.bind_eq_bind, Option.some_bind]
  rw [zipWith_add_mul_fuse]
  rfl

/-- The per-element value of `jiang_calibration` written out with the literal
Jiang coefficients. -/
theorem jiang_elem_eq (m y : ℚ) :
    jiang_elem m y = -24.135 + 6.1532 * m + -0.37866 * m ^ 2
      + -0.147 * (-7.071 + m) * y := by
  simp only [jiang_elem, jiang_p, polyEval, jiang_coeff, List.getD_cons_zero,
    List.getD_cons_succ, List.foldl_cons, List.foldl_nil]
  ring

/-!
Claim theorems.
-/

/-- C1: the claim says `bian_calibration_r23(m)` returns the cubic
`d0 + d1*m + d2*m^2 + d3*m^3`.  The code instead passes the 2-D list
`[bian_coeff[::-1]]` to `np.poly1d`, which raises
`ValueError: Polynomial must be 1d only.` for every input, contradicting the
function's own docstring; with the extra brackets removed, the function
computes exactly the claimed cubic. -/
theorem bian_r23_raises_but_intended_cubic :
    (∀ m : ℚ, bian_calibration_r23 m = Except.error PyError.poly_not_1d)
    ∧ (∀ m : ℚ, bian_calibration_r23_fixed m
        = Except.ok (138.0430 + -54.8284 * m + 7.2954 * m ^ 2 + -0.32293 * m ^ 3)) := by
  constructor
  · intro m; rfl
  · intro m
    simp only [bian_calibration_r23_fixed, np_poly1d, polyEval, bian_coeff,
      List.reverse_cons, List.reverse_nil, List.nil_append, List.cons_append,
      List.foldl_cons, List.foldl_nil, bind, Except.bind, Except.ok.injEq,
      pure, Except.pure]
    ring

/-- C2: for equal-length arrays (element-wise) and for scalars,
`jiang_calibration(m, y)` returns
`c0 + c1*m + c2*m^2 + c3*(c4 + m)*y` with the fixed Jiang coefficients. -/
theorem jiang_calibration_formula :
    (∀ ms ys : List ℚ, ms.length = ys.length →
      jiang_calibration (.arr ms) (.arr ys)
        = some (.arr (List.zipWith
            (fun m y => -24.135 + 6.1532 * m + -0.37866 * m ^ 2
              + -0.147 * (-7.071 + m) * y) ms ys)))
    ∧ (∀ m y : ℚ, jiang_calibration (.scalar m) (.scalar y)
        = some (.scalar (-24.135 + 6.1532 * m + -0.37866 * m ^ 2
            + -0.147 * (-7.071 + m) * y))) := by
  constructor
  · intro ms ys h
    rw [jiang_calibration_arr h]
    rw [zipWith_congr_fun (fun a b => jiang_elem_eq a b)]
  · intro m y
    rw [jiang_calibration_scalar, jiang_elem_eq]

/-- Witness for C2 at `metallicity = [8.0, 8.5]`, `log_o32 = [0.5, 0.3]`. -/
theorem jiang_calibration_formula_witness :
    ([(8 : ℚ), 17/2].length = [(1 : ℚ)/2, 3/10].length)
    ∧ jiang_calibration (.arr [8, 17/2]) (.arr [1/2, 3/10])
        = some (.arr (List.zipWith
            (fun m y => -24.135 + 6.1532 * m + -0.37866 * m ^ 2
              + -0.147 * (-7.071 + m) * y) [8, 17/2] [1/2, 3/10])) :=
  ⟨rfl, jiang_calibration_formula.1 [8, 17/2] [1/2, 3/10] rfl⟩

/-- C5: `bian_calibration_o32(m)` equals `-(m - 8.54)/0.59` exactly, and
vanishes at `m = 8.54`. -/
theorem bian_o32_linear :
    (∀ m : ℚ, bian_calibration_o32 m = -(m - 8.54) / 0.59)
    ∧ bian_calibration_o32 8.54 = 0 := by
  constructor
  · intro m
    unfold bian_calibration_o32
    ring
  · norm_num [bian_calibration_o32]

/-- C8: the claim says all three calibrations return a value for every finite
input.  `jiang_calibration` and `bian_calibration_o32` are total functions in
the embedding (evaluated here at metallicity 7), but `bian_calibration_r23`
raises `ValueError` for every input — the claim is right about the intent and
the code is wrong. -/
theorem calibrations_totality :
    jiang_calibration (.scalar 7) (.scalar (1/2)) = some (.scalar (776557/2000000))
    ∧ bian_calibration_o32 7 = 154/59
    ∧ bian_calibration_r23 7 = Except.error PyError.poly_not_1d := by
  refine ⟨?_, ?_, rfl⟩
  · rw [jiang_calibration_scalar, jiang_elem_eq]
    norm_num
  · norm_num [bian_calibration_o32]

/-- C9: for fixed `log_o32` the Jiang calibration is quadratic in `m`: on
scalars it computes `jiang_elem`, whose second difference with step `h` is
the constant `2 * jiang_coeff[2] * h^2`, independent of `m` and `y`. -/
theorem jiang_second_difference_constant :
    (∀ m y : ℚ, jiang_calibration (.scalar m) (.scalar y)
      = some (.scalar (jiang_elem m y)))
    ∧ (∀ m h y : ℚ,
        jiang_elem (m + 2 * h) y - 2 * jiang_elem (m + h) y + jiang_elem m y
          = 2 * jiang_coeff.getD 2 0 * h ^ 2) := by
  refine ⟨fun m y => rfl, fun m h y => ?_⟩
  simp only [jiang_elem, jiang_p, polyEval, jiang_coeff, List.getD_cons_zero,
    List.getD_cons_succ, List.foldl_cons, List.foldl_nil]
  ring

/-- C3 counterexample: the claim says the selection filter fails on the flag
sequence `[1.0, 0.3]`.  In the code the filter is two unvalidated
`np.where` calls: on `[1.0, 0.3]` it returns normally with
`detect = [0]`, `rlimit = []`, and the unrecognized row `1` silently lands
in neither set — no error of any kind is raised. -/
theorem selection_filter_no_validation :
    dataset_selection [1, 3/10] = ([0], [])
    ∧ 1 ∉ (dataset_selection [1, 3/10]).1
    ∧ 1 ∉ (dataset_selection [1, 3/10]).2 := by
  have h : dataset_selection [1, 3/10] = ([0], []) := by
    norm_num [dataset_selection, np_where_eq, List.range_succ, List.filter_append]
  refine ⟨h, ?_, ?_⟩ <;> simp [h]

/-- C3 amended: a detection-flag value outside `{0.0, 0.5, 1.0}` is silently
excluded — its row index appears in neither the detected nor the
reliability-limited index set — and no error is raised. -/
theorem selection_filter_silent_exclusion (flags : List ℚ) (i : ℕ)
    (h1 : flags.getD i 0 ≠ 1) (h2 : flags.getD i 0 ≠ 1/2) :
    i ∉ (dataset_selection flags).1 ∧ i ∉ (dataset_selection flags).2 := by
  constructor
  · intro hmem
    exact h1 (mem_np_where_eq.mp hmem).2
  · intro hmem
    exact h2 (mem_np_where_eq.mp hmem).2

/-- Witness for the amended C3 at `flags = [1.0, 0.3]`, `i = 1`. -/
theorem selection_filter_silent_exclusion_witness :
    (([1, (3:ℚ)/10].getD 1 0 ≠ 1 ∧ [1, (3:ℚ)/10].getD 1 0 ≠ 1/2))
    ∧ (1 ∉ (dataset_selection [1, (3:ℚ)/10]).1
        ∧ 1 ∉ (dataset_selection [1, (3:ℚ)/10]).2) :=
  ⟨⟨by norm_num [List.getD], by norm_num [List.getD]⟩,
    selection_filter_silent_exclusion [1, 3/10] 1
      (by norm_num [List.getD]) (by norm_num [List.getD])⟩

/-- C4: the discrepancy aggregator on datasets `A = ([1,2,3],[1,1,1])` and
`B = ([5],[4])`: residuals are `[0,1,2]` and `[1]`, the pooled array is their
concatenation `[0,1,2,1]`, and the statistics are median `1`, mean `1` and
population variance `1/2` (denominator `N = 4`, not `N - 1`), so the standard
deviation `np.std` is `sqrt 0.5`. -/
theorem discrepancy_aggregator_example :
    residuals [1, 2, 3] [1, 1, 1] = some [0, 1, 2]
    ∧ residuals [5] [4] = some [1]
    ∧ np_concatenate [[0, 1, 2], [1]] = [0, 1, 2, 1]
    ∧ discrepancy_stats [([1, 2, 3], [1, 1, 1]), ([5], [4])] = some (1, 1, 1/2)
    ∧ Real.sqrt ((np_var [0, 1, 2, 1] : ℚ) : ℝ) = Real.sqrt 0.5 := by
  refine ⟨?_, ?_, ?_, ?_, ?_⟩
  · norm_num [residuals, bcastList]
  · norm_num [residuals, bcastList]
  · norm_num [np_concatenate]
  · norm_num [discrepancy_stats, residual_arrays, residuals, bcastList,
      np_concatenate, np_median, np_average, np_var, List.insertionSort,
      List.orderedInsert]
  · have h : np_var [0, 1, 2, 1] = 1/2 := by
      norm_num [np_var, np_average]
    rw [h]
    norm_num

/-- C6: for any flag column, the selection filter returns exactly the indices
of flag-`1.0` rows as detected and the indices of flag-`0.5` rows as
reliability-limited; the sets are disjoint, contained in the row-index range,
and each is listed in the original row order (strictly increasing); on
`[1.0, 0.5, 0.0, 1.0, 0.5]` it returns `([0, 3], [1, 4])`. -/
theorem selection_filter_partition :
    (∀ flags : List ℚ, (∀ x ∈ flags, x = 0 ∨ x = 1/2 ∨ x = 1) →
      (∀ i, i ∈ (dataset_selection flags).1
          ↔ i < flags.length ∧ flags.getD i 0 = 1)
      ∧ (∀ i, i ∈ (dataset_selection flags).2
          ↔ i < flags.length ∧ flags.getD i 0 = 1/2)
      ∧ (∀ i, i ∈ (dataset_selection flags).1 → i ∉ (dataset_selection flags).2)
      ∧ (dataset_selection flags).1.Pairwise (fun a b => a < b)
      ∧ (dataset_selection flags).2.Pairwise (fun a b => a < b))
    ∧ dataset_selection [1, 1/2, 0, 1, 1/2] = ([0, 3], [1, 4]) := by
  constructor
  · intro flags _
    refine ⟨fun i => mem_np_where_eq, fun i => mem_np_where_eq, ?_, ?_, ?_⟩
    · intro i h1 h2
      have e1 := (mem_np_where_eq.mp h1).2
      have e2 := (mem_np_where_eq.mp h2).2
      rw [e1] at e2
      norm_num at e2
    · exact np_where_eq_pairwise flags 1
    · exact np_where_eq_pairwise flags (1/2)
  · norm_num [dataset_selection, np_where_eq, List.range_succ, List.filter_append]

/-- Witness for C6 at `flags = [1.0, 0.5, 0.0, 1.0, 0.5]`. -/
theorem selection_filter_partition_witness :
    (∀ x ∈ [(1:ℚ), 1/2, 0, 1, 1/2], x = 0 ∨ x = 1/2 ∨ x = 1)
    ∧ ((∀ i, i ∈ (dataset_selection [(1:ℚ), 1/2, 0, 1, 1/2]).1
          ↔ i < [(1:ℚ), 1/2, 0, 1, 1/2].length
            ∧ [(1:ℚ), 1/2, 0, 1, 1/2].getD i 0 = 1)
      ∧ (∀ i, i ∈ (dataset_selection [(1:ℚ), 1/2, 0, 1, 1/2]).2
          ↔ i < [(1:ℚ), 1/2, 0, 1, 1/2].length
            ∧ [(1:ℚ), 1/2, 0, 1, 1/2].getD i 0 = 1/2)
      ∧ (∀ i, i ∈ (dataset_selection [(1:ℚ), 1/2, 0, 1, 1/2]).1
          → i ∉ (dataset_selection [(1:ℚ), 1/2, 0, 1, 1/2]).2)
      ∧ (dataset_selection [(1:ℚ), 1/2, 0, 1, 1/2]).1.Pairwise (fun a b => a < b)
      ∧ (dataset_selection [(1:ℚ), 1/2, 0, 1, 1/2]).2.Pairwise (fun a b => a < b)) :=
  ⟨by norm_num, selection_filter_partition.1 [1, 1/2, 0, 1, 1/2] (by norm_num)⟩

/-- C7 counterexample: the claim says any two unequal-length array inputs make
`jiang_calibration` fail.  NumPy broadcasting stretches a length-1 array, so
for `metallicity = [8.0, 8.5]` and `log_o32 = [0.5]` (unequal lengths,
neither a scalar) the call succeeds and returns a two-element result. -/
theorem jiang_length_one_broadcasts :
    jiang_calibration (.arr [8, 17/2]) (.arr [1/2])
      = some (.arr [1576157/2000000, 1407967/2000000]) := by
  norm_num [jiang_calibration, npMap, npBroadcast, bcastList, jiang_p,
    polyEval, jiang_coeff]

/-- C7 amended: when the two array inputs have different lengths and neither
length is 1 (so NumPy broadcasting cannot reconcile the shapes),
`jiang_calibration` fails immediately — it returns no result at all. -/
theorem jiang_shape_mismatch_fails (ms ys : List ℚ)
    (hne : ms.length ≠ ys.length) (hm : ms.length ≠ 1) (hy : ys.length ≠ 1) :
    jiang_calibration (.arr ms) (.arr ys) = none := by
  simp [jiang_calibration, npMap, npBroadcast, bcastList, hne, hm, hy]

/-- Witness for the amended C7 at `metallicity = [8.0, 8.5, 9.0]`,
`log_o32 = [0.5, 0.5]`. -/
theorem jiang_shape_mismatch_fails_witness :
    ([(8:ℚ), 17/2, 9].length ≠ [(1:ℚ)/2, 1/2].length
      ∧ [(8:ℚ), 17/2, 9].length ≠ 1 ∧ [(1:ℚ)/2, 1/2].length ≠ 1)
    ∧ jiang_calibration (.arr [8, 17/2, 9]) (.arr [1/2, 1/2]) = none :=
  ⟨⟨by norm_num, by norm_num, by norm_num⟩,
    jiang_shape_mismatch_fails [8, 17/2, 9] [1/2, 1/2]
      (by norm_num) (by norm_num) (by norm_num)⟩

/-- C10: under the implicit table invariants (the composite columns share the
validation column's length; each catalog's columns share one length), the
pooled residual array of `jiang_comparison` exists and has exactly one entry
per composite row with detection flag `1.0` plus one per DEEP2 row plus one
per MACT row; rows with flag `0.5` (the `rlr23`, `rlo32`, `metal_rl`
extractions) contribute nothing to it. -/
theorem jiang_comparison_pooled_length (log10 : ℚ → ℚ)
    (valid lr23_comp lo32_comp zmetal : List ℚ)
    (deep_r23 deep_o32 deep_oh : List ℚ)
    (mact_r23 mact_o32 mact_oh : List ℚ)
    (hcomp : lr23_comp.length = valid.length ∧ lo32_comp.length = valid.length
      ∧ zmetal.length = valid.length)
    (hdeep : deep_r23.length = deep_oh.length ∧ deep_o32.length = deep_oh.length)
    (hmact : mact_r23.length = mact_oh.length ∧ mact_o32.length = mact_oh.length) :
    ∃ arr, jiang_comparison_arr_sum log10 valid lr23_comp lo32_comp zmetal
        deep_r23 deep_o32 deep_oh mact_r23 mact_o32 mact_oh = some arr
      ∧ arr.length
          = (np_where_eq valid 1).length + deep_oh.length + mact_oh.length := by
  obtain ⟨h1, h2, h3⟩ := hcomp
  obtain ⟨hd1, hd2⟩ := hdeep
  obtain ⟨hm1, hm2⟩ := hmact
  have hbound : ∀ i ∈ np_where_eq valid 1, i < valid.length :=
    fun i hi => (mem_np_where_eq.mp hi).1
  have e1 : np_index lr23_comp (np_where_eq valid 1)
      = some ((np_where_eq valid 1).map (fun i => lr23_comp.getD i 0)) :=
    np_index_eq_some (fun i hi => h1 ▸ hbound i hi)
  have e2 : np_index lo32_comp (np_where_eq valid 1)
      = some ((np_where_eq valid 1).map (fun i => lo32_comp.getD i 0)) :=
    np_index_eq_some (fun i hi => h2 ▸ hbound i hi)
  have e3 : np_index zmetal (np_where_eq valid 1)
      = some ((np_where_eq valid 1).map (fun i => zmetal.getD i 0)) :=
    np_index_eq_some (fun i hi => h3 ▸ hbound i hi)
  have ej1 : jiang_calibration
      (.arr ((np_where_eq valid 1).map (fun i => zmetal.getD i 0)))
      (.arr ((np_where_eq valid 1).map (fun i => lo32_comp.getD i 0)))
      = some (.arr (List.zipWith jiang_elem
          ((np_where_eq valid 1).map (fun i => zmetal.getD i 0))
          ((np_where_eq valid 1).map (fun i => lo32_comp.getD i 0)))) :=
    jiang_calibration_arr (by simp)
  have eA : npBroadcast (fun a b => a - b)
      (.arr (List.zipWith jiang_elem
          ((np_where_eq valid 1).map (fun i => zmetal.getD i 0))
          ((np_where_eq valid 1).map (fun i => lo32_comp.getD i 0))))
      (.arr ((np_where_eq valid 1).map (fun i => lr23_comp.getD i 0)))
      = some (.arr (List.zipWith (fun a b => a - b)
          (List.zipWith jiang_elem
            ((np_where_eq valid 1).map (fun i => zmetal.getD i 0))
            ((np_where_eq valid 1).map (fun i => lo32_comp.getD i 0)))
          ((np_where_eq valid 1).map (fun i => lr23_comp.getD i 0)))) :=
    npBroadcast_arr_eq _ _ _ (by simp)
  have ej2 : jiang_calibration (.arr deep_oh) (.arr (deep_o32.map log10))
      = some (.arr (List.zipWith jiang_elem deep_oh (deep_o32.map log10))) :=
    jiang_calibration_arr (by simp [hd2])
  have ej3 : jiang_calibration (.arr mact_oh) (.arr (mact_o32.map log10))
      = some (.arr (List.zipWith jiang_elem mact_oh (mact_o32.map log10))) :=
    jiang_calibration_arr (by simp [hm2])
  have eB : npBroadcast (fun a b => a - b)
      (.arr (List.zipWith jiang_elem deep_oh (deep_o32.map log10)))
      (.arr (deep_r23.map log10))
      = some (.arr (List.zipWith (fun a b => a - b)
          (List.zipWith jiang_elem deep_oh (deep_o32.map log10))
          (deep_r23.map log10))) :=
    npBroadcast_arr_eq _ _ _ (by simp [hd1, hd2])
  have eC : npBroadcast (fun a b => a - b)
      (.arr (List.zipWith jiang_elem mact_oh (mact_o32.map log10)))
      (.arr (mact_r23.map log10))
      = some (.arr (List.zipWith (fun a b => a - b)
          (List.zipWith jiang_elem mact_oh (mact_o32.map log10))
          (mact_r23.map log10))) :=
    npBroadcast_arr_eq _ _ _ (by simp [hm1, hm2])
  refine ⟨np_concatenate
      [List.zipWith (fun a b => a - b)
          (List.zipWith jiang_elem
            ((np_where_eq valid 1).map (fun i => zmetal.getD i 0))
            ((np_where_eq valid 1).map (fun i => lo32_comp.getD i 0)))
          ((np_where_eq valid 1).map (fun i => lr23_comp.getD i 0)),
        List.zipWith (fun a b => a - b)
          (List.zipWith jiang_elem deep_oh (deep_o32.map log10))
          (deep_r23.map log10),
        List.zipWith (fun a b => a - b)
          (List.zipWith jiang_elem mact_oh (mact_o32.map log10))
          (mact_r23.map log10)], ?_, ?_⟩
  · simp only [jiang_comparison_arr_sum, e1, e2, e3, ej1, ej2, ej3, eA, eB, eC,
      Option.bind_eq_bind, Option.some_bind]
  · simp [np_concatenate, List.length_zipWith, hd1, hd2, hm1, hm2]
    omega

/-- Witness for C10 on a concrete composite table with flags
`[1.0, 0.5, 1.0]` (two detections, one reliability limit), a two-row DEEP2
catalog and a one-row MACT catalog: the pooled array has `2 + 2 + 1`
entries. -/
theorem jiang_comparison_pooled_length_witness :
    (([(10 : ℚ), 20, 30].length = [(1 : ℚ), 1/2, 1].length
        ∧ [(1 : ℚ), 2, 3].length = [(1 : ℚ), 1/2, 1].length
        ∧ [(8 : ℚ), 17/2, 9].length = [(1 : ℚ), 1/2, 1].length)
      ∧ ([(7 : ℚ), 7].length = [(8 : ℚ), 8].length
        ∧ [(1 : ℚ), 1].length = [(8 : ℚ), 8].length)
      ∧ ([(6 : ℚ)].length = [(8 : ℚ)].length
        ∧ [(1 : ℚ)].length = [(8 : ℚ)].length))
    ∧ ∃ arr, jiang_comparison_arr_sum id [1, 1/2, 1] [10, 20, 30] [1, 2, 3]
        [8, 17/2, 9] [7, 7] [1, 1] [8, 8] [6] [1] [8] = some arr
      ∧ arr.length = (np_where_eq [1, 1/2, 1] 1).length
          + [(8 : ℚ), 8].length + [(8 : ℚ)].length :=
  ⟨⟨⟨rfl, rfl, rfl⟩, ⟨rfl, rfl⟩, ⟨rfl, rfl⟩⟩,
    jiang_comparison_pooled_length id [1, 1/2, 1] [10, 20, 30] [1, 2, 3]
      [8, 17/2, 9] [7, 7] [1, 1] [8, 8] [6] [1] [8]
      ⟨rfl, rfl, rfl⟩ ⟨rfl, rfl⟩ ⟨rfl, rfl⟩⟩
